import Mathlib

/-!
Shallow embedding of the Login-Softphone browser-extension content script
(`src/content.js`), covering phone-number cleaning and validation, the
bounded call history, settings merging, widget visibility, the
window-message listener, and the click auto-detection path, together with
theorems settling the specification claims about them.

Strings are modelled as `List Char` (JavaScript strings); the browser
storage areas are modelled as explicit fields of the state records.
-/

/-- Common JavaScript whitespace characters, as matched by the regex class
backslash-s and trimmed by `String.prototype.trim` (the usual ASCII subset). -/
def isJsWhitespace (c : Char) : Bool :=
  c = ' ' || c = '\t' || c = '\n' || c = '\r' || c = '\x0b' || c = '\x0c'

/-- JavaScript `String.prototype.trim`: drop whitespace from both ends. -/
def jsTrim (s : List Char) : List Char :=
  ((s.dropWhile isJsWhitespace).reverse.dropWhile isJsWhitespace).reverse

/-- `cleanPhoneNumber` from `content.js`: `phoneNumber.replace(/[^\d+]/g, '')`,
keeping only decimal digits and the plus sign. -/
def cleanPhoneNumber (s : List Char) : List Char :=
  s.filter (fun c => c.isDigit || decide (c = '+'))

/-- Membership test for the regex character class `[\d\s\-().]` used inside
the validation regex of `isValidPhoneNumber`. -/
def isPhoneClassChar (c : Char) : Bool :=
  c.isDigit || isJsWhitespace c || c = '-' || c = '(' || c = ')' || c = '.'

/-- The body `[\d\s\-().]{7,15}$` of the validation regex: between 7 and 15
characters, all from the class, consuming the whole remaining string. -/
def phoneBodyTest (l : List Char) : Bool :=
  decide (7 ≤ l.length) && decide (l.length ≤ 15) && l.all isPhoneClassChar

/-- The full test `/^[+]?[\d\s\-().]{7,15}$/.test(l)`: the optional leading
`[+]?` is tried first (consuming a plus) and, on failure, skipped. -/
def phoneRegexTest (l : List Char) : Bool :=
  (if l.head? = some '+' then phoneBodyTest l.tail else false) || phoneBodyTest l

/-- `isValidPhoneNumber` from `content.js`: strip non-digit/plus characters,
then require both the regex test and a total length between 7 and 15. -/
def isValidPhoneNumber (s : List Char) : Bool :=
  let cleaned := cleanPhoneNumber s
  phoneRegexTest cleaned && decide (7 ≤ cleaned.length) && decide (cleaned.length ≤ 15)

/-- Modelled from the spec (claim C1 as stated): the stripped string contains
between 7 and 15 digits, with an optional plus prefix allowed in addition to
those digits. -/
def specPhoneClaim (s : List Char) : Bool :=
  let c := cleanPhoneNumber s
  let d := if c.head? = some '+' then c.tail else c
  d.all Char.isDigit && decide (7 ≤ d.length) && decide (d.length ≤ 15)

/-- Modelled from the spec, amended to match the code: with a plus prefix the
stripped string may carry only 7 to 14 digits (the plus counts towards the
15-character total-length bound); without a prefix, 7 to 15 digits. -/
def specPhoneAmended (s : List Char) : Bool :=
  let c := cleanPhoneNumber s
  if c.head? = some '+' then
    c.tail.all Char.isDigit && decide (7 ≤ c.tail.length) && decide (c.tail.length ≤ 14)
  else
    c.all Char.isDigit && decide (7 ≤ c.length) && decide (c.length ≤ 15)

/-- First character class `[6-9]` of the detection regex
`/(?:\+91[\s\-]?)?[6-9]\d{9}/g`. -/
def isPhoneStart (c : Char) : Bool :=
  decide ('6' ≤ c) && decide (c ≤ '9')

/-- Consume exactly `n` decimal digits from the front of the list, returning
them together with the remainder. -/
def takeDigits : Nat → List Char → Option (List Char × List Char)
  | 0, l => some ([], l)
  | n + 1, c :: l =>
    if c.isDigit then (takeDigits n l).map (fun p => (c :: p.1, p.2)) else none
  | _ + 1, [] => none

/-- Match the mandatory core `[6-9]\d{9}` of the detection regex at the head
of the list. -/
def matchCore : List Char → Option (List Char × List Char)
  | c :: rest =>
    if isPhoneStart c then
      (takeDigits 9 rest).map (fun p => (c :: p.1, p.2))
    else none
  | [] => none

/-- Match the full detection regex `(?:\+91[\s\-]?)?[6-9]\d{9}` at the head of
the list, with the backtracking order of a JavaScript engine: the optional
`+91` group (and inside it the optional separator) is tried greedily first. -/
def matchPhoneAt (l : List Char) : Option (List Char × List Char) :=
  match l with
  | '+' :: '9' :: '1' :: rest =>
    (match rest with
     | c :: rest2 =>
       if isJsWhitespace c || c = '-' then
         match matchCore rest2 with
         | some p => some ('+' :: '9' :: '1' :: c :: p.1, p.2)
         | none =>
           match matchCore rest with
           | some p => some ('+' :: '9' :: '1' :: p.1, p.2)
           | none => matchCore l
       else
         match matchCore rest with
         | some p => some ('+' :: '9' :: '1' :: p.1, p.2)
         | none => matchCore l
     | [] => matchCore l)
  | _ => matchCore l

/-- Fuel-indexed scan of `text.match(regex)` with the global flag: find
non-overlapping leftmost matches, resuming after each match. The fuel bounds
the number of steps; `phoneMatches` supplies the list length, which suffices
since every step consumes at least one character. -/
def phoneMatchesAux : Nat → List Char → List (List Char)
  | 0, _ => []
  | _ + 1, [] => []
  | n + 1, c :: cs =>
    match matchPhoneAt (c :: cs) with
    | some p => p.1 :: phoneMatchesAux n p.2
    | none => phoneMatchesAux n cs

/-- `text.match(this.phoneRegex)` as a list of matched substrings (the empty
list standing for a `null` result). -/
def phoneMatches (l : List Char) : List (List Char) :=
  phoneMatchesAux l.length l

example : phoneMatches "Call 9876543210 now".data = ["9876543210".data] := by decide
example : phoneMatches "+91 9876543210".data = ["+91 9876543210".data] := by decide
example : phoneMatches "no number here".data = [] := by decide
example : phoneMatches "9876543210 and 8876543210".data
    = ["9876543210".data, "8876543210".data] := by decide

example : isValidPhoneNumber "98765 43210".data = true := by decide
example : isValidPhoneNumber "+919876543210".data = true := by decide
example : isValidPhoneNumber "123456".data = false := by decide
example : isValidPhoneNumber "+123456789012345".data = false := by decide
example : specPhoneClaim "+123456789012345".data = true := by decide
example : specPhoneAmended "+123456789012345".data = false := by decide

/-- The `this.settings` object: three boolean fields with the defaults set in
the `SoftphoneManager` constructor. -/
structure Settings where
  autoDetect : Bool
  showFloatingButton : Bool
  highlightNumbers : Bool
deriving DecidableEq

/-- The constructor defaults: all three settings enabled. -/
def defaultSettings : Settings :=
  { autoDetect := true, showFloatingButton := true, highlightNumbers := true }

/-- A partial settings object passed to `updateSettings`; `none` models a
field that is absent (`undefined`) in the update. -/
structure SettingsUpdate where
  autoDetect : Option Bool
  showFloatingButton : Option Bool
  highlightNumbers : Option Bool
deriving DecidableEq

/-- The object spread `{ ...this.settings, ...newSettings }`: each field takes
the update value when present, otherwise the previous value. -/
def mergeSettings (s : Settings) (u : SettingsUpdate) : Settings :=
  { autoDetect := u.autoDetect.getD s.autoDetect
    showFloatingButton := u.showFloatingButton.getD s.showFloatingButton
    highlightNumbers := u.highlightNumbers.getD s.highlightNumbers }

/-- A call-history entry as built by `addToCallHistory`. -/
structure CallEntry where
  number : List Char
  timestamp : List Char
  direction : List Char
deriving DecidableEq

/-- The entry object `{number, timestamp, direction: 'outbound'}`. -/
def mkCall (number timestamp : List Char) : CallEntry :=
  { number := number, timestamp := timestamp, direction := "outbound".data }

/-- An on-page toast created by `showNotification`: message and css kind. -/
structure Notif where
  msg : List Char
  kind : List Char
deriving DecidableEq

/-- The observable state of a `SoftphoneManager` instance together with the
storage keys it writes: `callHistory` mirrors `this.callHistory`,
`storedCallHistory` the `chrome.storage.local` key `callHistory`,
`savedSettings` the `chrome.storage.sync` key `softphoneSettings`; the widget
fields track the container element, its `style.display`, the
`isWidgetVisible` flag and the outside-click listener; `notifs` and
`sentCallMsgs` record the toasts shown and the `SOFTPHONE_CALL` numbers
posted to the iframe. -/
structure ManagerState where
  callHistory : List CallEntry
  storedCallHistory : List CallEntry
  settings : Settings
  savedSettings : Settings
  widgetCount : Nat
  widgetExists : Bool
  displayVisible : Bool
  isWidgetVisible : Bool
  outsideClickBound : Bool
  floatingButtonExists : Bool
  notifs : List Notif
  sentCallMsgs : List (List Char)
deriving DecidableEq

/-- The state right after the constructor ran, before `init` created DOM
elements: empty history and storage, default settings, no widget. -/
def emptyMgr : ManagerState :=
  { callHistory := [], storedCallHistory := [], settings := defaultSettings
    savedSettings := defaultSettings, widgetCount := 0, widgetExists := false
    displayVisible := false, isWidgetVisible := false, outsideClickBound := false
    floatingButtonExists := false, notifs := [], sentCallMsgs := [] }

/-- `showNotification(message, type)`: append a toast. -/
def showNotif (m k : List Char) (st : ManagerState) : ManagerState :=
  { st with notifs := st.notifs ++ [⟨m, k⟩] }

/-- `initializeWidget`: create the hidden widget container once and append it
to the document body. -/
def initializeWidget (st : ManagerState) : ManagerState :=
  { st with widgetCount := st.widgetCount + 1, widgetExists := true
            displayVisible := false }

/-- The text of the calling toast shown by `showWidget`. -/
def callingMsg (pn : List Char) : List Char :=
  "📞 Calling ".data ++ pn ++ "...".data

/-- `showWidget(phoneNumber = '')`: a no-op when the widget was never
initialized; otherwise set `display` to `block`, mark it visible, bind the
outside-click handler, and, when a number was given, post a `SOFTPHONE_CALL`
message to the iframe and toast the calling message. -/
def showWidget (pn : List Char) (st : ManagerState) : ManagerState :=
  if st.widgetExists = false then st
  else
    let st1 := { st with displayVisible := true, isWidgetVisible := true
                         outsideClickBound := true }
    if pn = [] then st1
    else { st1 with sentCallMsgs := st1.sentCallMsgs ++ [pn]
                    notifs := st1.notifs ++ [⟨callingMsg pn, "success".data⟩] }

/-- `hideWidget`: when the widget exists, set `display` to `none` and clear
the visibility flag; always unbind the outside-click handler. -/
def hideWidget (st : ManagerState) : ManagerState :=
  let st1 :=
    if st.widgetExists then { st with displayVisible := false, isWidgetVisible := false }
    else st
  { st1 with outsideClickBound := false }

/-- `toggleWidget`: only acts when the widget exists; hide when visible, show
(with no number) otherwise. -/
def toggleWidget (st : ManagerState) : ManagerState :=
  if st.widgetExists then
    (if st.isWidgetVisible then hideWidget st else showWidget [] st)
  else st

/-- `addToCallHistory(phoneNumber)`: unshift a new entry, truncate to 50 when
the list grew beyond 50, and write the result to the local-storage key
`callHistory`. The timestamp is passed in (the code reads the clock). -/
def addToCallHistory (number timestamp : List Char) (st : ManagerState) : ManagerState :=
  let h0 := mkCall number timestamp :: st.callHistory
  let h := if 50 < h0.length then h0.take 50 else h0
  { st with callHistory := h, storedCallHistory := h }

/-- `clearCallHistory`: empty both the in-memory list and the stored key. -/
def clearCallHistory (st : ManagerState) : ManagerState :=
  { st with callHistory := [], storedCallHistory := [] }

/-- The message of the invalid-number toast in `initiateCall`. -/
def invalidMsg : List Char := "Invalid phone number format".data

/-- `initiateCall(phoneNumber)`: return silently on a falsy (empty) argument;
clean the number; on failed validation toast an error and stop; otherwise
record the cleaned number in the history and show the widget with it. -/
def initiateCall (pn ts : List Char) (st : ManagerState) : ManagerState :=
  if pn = [] then st
  else
    let c := cleanPhoneNumber pn
    if isValidPhoneNumber c = false then showNotif invalidMsg "error".data st
    else showWidget c (addToCallHistory c ts st)

/-- `createFloatingButton`: no-op when disabled by settings or already
present; otherwise add the button. -/
def createFloatingButton (st : ManagerState) : ManagerState :=
  if st.settings.showFloatingButton = false || st.floatingButtonExists then st
  else { st with floatingButtonExists := true }

/-- `updateSettings(newSettings)`: merge the update into the settings, save
them to sync storage, then create or remove the floating button when the
update mentions `showFloatingButton` (the highlight branch only rewrites DOM
highlights, which are outside this model). -/
def updateSettings (u : SettingsUpdate) (st : ManagerState) : ManagerState :=
  let s := mergeSettings st.settings u
  let st1 := { st with settings := s, savedSettings := s }
  match u.showFloatingButton with
  | none => st1
  | some b =>
    if b && !st1.floatingButtonExists then createFloatingButton st1
    else if !b && st1.floatingButtonExists then { st1 with floatingButtonExists := false }
    else st1

/-- The state after `init` ran with default settings: one widget container
created, hidden. -/
def initializedState : ManagerState := initializeWidget emptyMgr

/-- A value held under the local-storage key `softphoneCredentials`: either an
opaque credentials blob relayed from the widget, or the `{loggedIn: false}`
marker written on logout. -/
inductive CredValue
  | blob (b : List Char)
  | loggedOut
deriving DecidableEq

/-- The state touched by the top-level `window.addEventListener("message", …)`
handler: the stored credentials, the manager instance (if created), the
page-level toasts, and the `SOFTPHONE_RESPONSE_CREDENTIALS` messages posted
back (payload and target origin). -/
structure PageState where
  storedCredentials : Option CredValue
  mgr : Option ManagerState
  pageNotifs : List Notif
  sentResponses : List (Option CredValue × List Char)
deriving DecidableEq

/-- A received `message` event: its origin, `data.type`, the optional
`data.data?.from` of an incoming-call notice, and the `data.credentials`
blob of a save request. -/
structure MessageEvent where
  origin : List Char
  dataType : List Char
  dataFrom : Option (List Char)
  dataCredentials : List Char
deriving DecidableEq

/-- The single hardcoded origin the listener trusts. -/
def trustedOrigin : List Char :=
  "https://founderscartin.s3.ap-south-1.amazonaws.com/app/ivrsolutions/webrtc/chrome-ext/index.html".data

/-- `isWidgetOpen`: the flag, the element, and a `display` other than
`none`. -/
def isWidgetOpen (m : ManagerState) : Bool :=
  m.isWidgetVisible && m.widgetExists && m.displayVisible

/-- The four `data.type` strings the listener reacts to. -/
def incomingCallType : List Char := "SOFTPHONE_INCOMING_CALL".data

/-- Type string of the credential-save message. -/
def saveCredsType : List Char := "SOFTPHONE_SAVE_CREDENTIALS".data

/-- Type string of the credential-request message. -/
def requestCredsType : List Char := "SOFTPHONE_REQUEST_CREDENTIALS".data

/-- Type string of the logout-sync message. -/
def logoutSyncType : List Char := "SOFTPHONE_LOGOUT_SYNC".data

/-- Text of the incoming-call toast. -/
def incomingMsg (f : List Char) : List Char :=
  "📞 Incoming call from ".data ++ f

/-- The window `message` listener of `content.js` (lines 899-939): bail out
unless the origin is the trusted one; then run the four independent
`data.type` checks in order — show the widget and toast on an incoming call,
store the credentials blob on a save, post the stored credentials (or null)
back to the sender origin on a request, and overwrite the credentials with
the logged-out marker on a logout sync. -/
def messageListener (ev : MessageEvent) (st : PageState) : PageState :=
  if ev.origin ≠ trustedOrigin then st
  else
    let st1 :=
      if ev.dataType = incomingCallType then
        let callFrom := ev.dataFrom.getD "Unknown".data
        let sta :=
          match st.mgr with
          | some m =>
            if isWidgetOpen m = false then { st with mgr := some (showWidget [] m) }
            else st
          | none => st
        { sta with pageNotifs := sta.pageNotifs ++ [⟨incomingMsg callFrom, "info".data⟩] }
      else st
    let st2 :=
      if ev.dataType = saveCredsType then
        { st1 with storedCredentials := some (CredValue.blob ev.dataCredentials) }
      else st1
    let st3 :=
      if ev.dataType = requestCredsType then
        { st2 with sentResponses := st2.sentResponses ++ [(st2.storedCredentials, ev.origin)] }
      else st2
    if ev.dataType = logoutSyncType then
      { st3 with storedCredentials := some CredValue.loggedOut }
    else st3

/-- A click target as seen by `handleClick`: whether it sits inside the
widget container, whether it is an anchor with a `tel:` href (and that href),
whether it carries the highlighted-number class, and its text content. -/
structure ClickTarget where
  insideWidget : Bool
  isTelAnchor : Bool
  href : List Char
  isHighlighted : Bool
  textContent : List Char
deriving DecidableEq

/-- `href.replace(/^tel:/i, '')`: drop a leading case-insensitive `tel:`. -/
def stripTelScheme (l : List Char) : List Char :=
  match l with
  | a :: b :: c :: d :: rest =>
    if a.toLower = 't' && b.toLower = 'e' && c.toLower = 'l' && d = ':' then rest
    else l
  | _ => l

/-- `handleClick` from `content.js`: the number handed to `initiateCall`, if
any. Clicks inside the widget are ignored; `tel:` anchors and highlighted
numbers are intercepted when they validate; otherwise the auto-detection path
runs — only with `autoDetect` on, a non-empty text content, a trimmed length
of at most 50, and exactly one regex match that validates. -/
def handleClick (s : Settings) (t : ClickTarget) : Option (List Char) :=
  if t.insideWidget then none
  else if t.isTelAnchor then
    let pn := jsTrim (stripTelScheme t.href)
    if isValidPhoneNumber pn then some pn else none
  else if t.isHighlighted then
    let pn := jsTrim t.textContent
    if isValidPhoneNumber pn then some pn else none
  else if !s.autoDetect || t.textContent.isEmpty then none
  else
    let text := jsTrim t.textContent
    if 50 < text.length then none
    else
      match phoneMatches text with
      | [m] => if isValidPhoneNumber m then some m else none
      | _ => none

/-- Operation alphabet for claim C2: the direct history operations. -/
inductive HistOp
  | add (number timestamp : List Char)
  | clear
deriving DecidableEq

/-- Apply one history operation. -/
def applyHistOp (op : HistOp) (st : ManagerState) : ManagerState :=
  match op with
  | .add n ts => addToCallHistory n ts st
  | .clear => clearCallHistory st

/-- Run a sequence of history operations left to right. -/
def runHistOps (st : ManagerState) (ops : List HistOp) : ManagerState :=
  ops.foldl (fun s o => applyHistOp o s) st

/-- Operation alphabet of the externally triggerable manager methods (clicks,
keyboard, extension messages): widget show/hide/toggle, call initiation,
history clearing and settings updates. -/
inductive MOp
  | showOp (pn : List Char)
  | hide
  | toggle
  | call (pn ts : List Char)
  | clearHistory
  | updSettings (u : SettingsUpdate)
deriving DecidableEq

/-- Apply one manager operation. -/
def applyMOp (op : MOp) (st : ManagerState) : ManagerState :=
  match op with
  | .showOp pn => showWidget pn st
  | .hide => hideWidget st
  | .toggle => toggleWidget st
  | .call pn ts => initiateCall pn ts st
  | .clearHistory => clearCallHistory st
  | .updSettings u => updateSettings u st

/-- Run a sequence of manager operations left to right. -/
def runMOps (st : ManagerState) (ops : List MOp) : ManagerState :=
  ops.foldl (fun s o => applyMOp o s) st

theorem bool_eq_of_iff {a b : Bool} (h : a = true ↔ b = true) : a = b := by
  cases a <;> cases b <;> simp_all

theorem mem_clean {s : List Char} {x : Char} (h : x ∈ cleanPhoneNumber s) :
    (x.isDigit || decide (x = '+')) = true := by
  unfold cleanPhoneNumber at h
  exact (List.mem_filter.mp h).2

theorem all_class_of_digit_or_plus {l : List Char}
    (h : ∀ x ∈ l, (x.isDigit || decide (x = '+')) = true) :
    l.all isPhoneClassChar = l.all Char.isDigit := by
  induction l with
  | nil => rfl
  | cons a t ih =>
    have ha : a.isDigit = true ∨ a = '+' := by
      have := h a (List.mem_cons_self a t)
      simpa using this
    have ht := ih (fun x hx => h x (List.mem_cons_of_mem a hx))
    simp only [List.all_cons, ht]
    have hhead : isPhoneClassChar a = a.isDigit := by
      rcases ha with hd | hp
      · simp [isPhoneClassChar, hd]
      · subst hp; decide
    rw [hhead]

/-- C1 (corrected): the claim that validation accepts exactly an optional
plus prefix plus 7 to 15 digits fails; a plus followed by 15 digits is
rejected, because the plus itself counts towards the 15-character length
bound checked on the cleaned string. -/
theorem C1_counterexample :
    ¬ (isValidPhoneNumber "+123456789012345".data
        = specPhoneClaim "+123456789012345".data) := by
  decide

/-- C1 (amended): for every string, isValidPhoneNumber returns true exactly
when the stripped string is an optional plus followed by digits only, with 7
to 14 digits when the plus is present (the plus counts towards the
15-character bound) and 7 to 15 digits otherwise. -/
theorem C1_isValidPhoneNumber_amended (s : List Char) :
    isValidPhoneNumber s = specPhoneAmended s := by
  have hmem : ∀ x ∈ cleanPhoneNumber s, (x.isDigit || decide (x = '+')) = true :=
    fun _ hx => mem_clean hx
  have hplus : isPhoneClassChar '+' = false := by decide
  unfold isValidPhoneNumber specPhoneAmended phoneRegexTest phoneBodyTest
  cases hc : cleanPhoneNumber s with
  | nil => rfl
  | cons a d =>
    rw [hc] at hmem
    have hd : ∀ x ∈ d, (x.isDigit || decide (x = '+')) = true :=
      fun x hx => hmem x (List.mem_cons_of_mem a hx)
    have hall : d.all isPhoneClassChar = d.all Char.isDigit :=
      all_class_of_digit_or_plus hd
    have hallc : (a :: d).all isPhoneClassChar = (a :: d).all Char.isDigit :=
      all_class_of_digit_or_plus hmem
    apply bool_eq_of_iff
    by_cases hp : a = '+'
    · subst hp
      cases hA : d.all Char.isDigit
      · simp [hall, hA, hplus, List.all_cons]
      · simp [hall, hA, hplus, List.all_cons]
        omega
    · cases hA : (a :: d).all Char.isDigit
      · simp [hallc, hA, hp]
      · simp [hallc, hA, hp]
        omega

theorem clean_idem (s : List Char) :
    cleanPhoneNumber (cleanPhoneNumber s) = cleanPhoneNumber s := by
  unfold cleanPhoneNumber
  exact List.filter_eq_self.mpr (fun x hx => (List.mem_filter.mp hx).2)

/-- C8: cleaning is idempotent, and validation is invariant under cleaning,
since isValidPhoneNumber itself re-cleans its argument first. -/
theorem C8_clean_idempotent_validation_invariant (s : List Char) :
    cleanPhoneNumber (cleanPhoneNumber s) = cleanPhoneNumber s ∧
    isValidPhoneNumber (cleanPhoneNumber s) = isValidPhoneNumber s := by
  refine ⟨clean_idem s, ?_⟩
  unfold isValidPhoneNumber
  rw [clean_idem]

theorem getD_getD {α : Type} (o : Option α) (a : α) : o.getD (o.getD a) = o.getD a := by
  cases o <;> rfl

theorem merge_idem (s : Settings) (u : SettingsUpdate) :
    mergeSettings (mergeSettings s u) u = mergeSettings s u := by
  unfold mergeSettings
  simp only [getD_getD]

theorem updateSettings_settings (u : SettingsUpdate) (st : ManagerState) :
    (updateSettings u st).settings = mergeSettings st.settings u := by
  unfold updateSettings createFloatingButton
  cases u.showFloatingButton with
  | none => rfl
  | some b => dsimp only; split <;> [split <;> rfl; split <;> rfl]

/-- C7: the settings merge is idempotent; applying the same update twice
(through updateSettings) leaves the same settings state as applying it
once. -/
theorem C7_settings_merge_idempotent (s : Settings) (u : SettingsUpdate) (st : ManagerState) :
    mergeSettings (mergeSettings s u) u = mergeSettings s u ∧
    (updateSettings u (updateSettings u st)).settings = (updateSettings u st).settings := by
  refine ⟨merge_idem s u, ?_⟩
  rw [updateSettings_settings, updateSettings_settings, merge_idem]

/-- C3: updateSettings merges rather than replaces — each field mentioned in
the update takes its new value, and each field absent from the update keeps
its previous value. -/
theorem C3_updateSettings_merges (st : ManagerState) (u : SettingsUpdate) :
    (∀ b, u.autoDetect = some b → (updateSettings u st).settings.autoDetect = b) ∧
    (u.autoDetect = none →
      (updateSettings u st).settings.autoDetect = st.settings.autoDetect) ∧
    (∀ b, u.showFloatingButton = some b →
      (updateSettings u st).settings.showFloatingButton = b) ∧
    (u.showFloatingButton = none →
      (updateSettings u st).settings.showFloatingButton = st.settings.showFloatingButton) ∧
    (∀ b, u.highlightNumbers = some b →
      (updateSettings u st).settings.highlightNumbers = b) ∧
    (u.highlightNumbers = none →
      (updateSettings u st).settings.highlightNumbers = st.settings.highlightNumbers) := by
  rw [updateSettings_settings]
  unfold mergeSettings
  refine ⟨?_, ?_, ?_, ?_, ?_, ?_⟩ <;> intro h
  · intro hh; rw [hh]; rfl
  · rw [h]; rfl
  · intro hh; rw [hh]; rfl
  · rw [h]; rfl
  · intro hh; rw [hh]; rfl
  · rw [h]; rfl

/-- C3 witness: a concrete update setting autoDetect to false and
highlightNumbers to true while leaving showFloatingButton untouched. -/
theorem C3_witness :
    (updateSettings ⟨some false, none, some true⟩ emptyMgr).settings.autoDetect = false ∧
    (updateSettings ⟨some false, none, some true⟩ emptyMgr).settings.showFloatingButton
      = emptyMgr.settings.showFloatingButton ∧
    (updateSettings ⟨some false, none, some true⟩ emptyMgr).settings.highlightNumbers = true := by
  have h := C3_updateSettings_merges emptyMgr ⟨some false, none, some true⟩
  exact ⟨h.1 false rfl, h.2.2.2.1 rfl, h.2.2.2.2.1 true rfl⟩

theorem add_history_take (n ts : List Char) (st : ManagerState) :
    (addToCallHistory n ts st).callHistory = (mkCall n ts :: st.callHistory).take 50 ∧
    (addToCallHistory n ts st).storedCallHistory = (addToCallHistory n ts st).callHistory := by
  unfold addToCallHistory
  dsimp only
  refine ⟨?_, rfl⟩
  split
  · rfl
  · next h => exact (List.take_of_length_le (by omega)).symm

theorem applyHistOp_inv (op : HistOp) (st : ManagerState) :
    (applyHistOp op st).callHistory.length ≤ 50 ∧
    (applyHistOp op st).storedCallHistory = (applyHistOp op st).callHistory := by
  cases op with
  | add n ts =>
    have ha := add_history_take n ts st
    refine ⟨?_, ha.2⟩
    show (addToCallHistory n ts st).callHistory.length ≤ 50
    rw [ha.1, List.length_take]
    omega
  | clear => exact ⟨by simp [applyHistOp, clearCallHistory], rfl⟩

theorem runHistOps_inv (ops : List HistOp) (st : ManagerState)
    (h : st.callHistory.length ≤ 50 ∧ st.storedCallHistory = st.callHistory) :
    (runHistOps st ops).callHistory.length ≤ 50 ∧
    (runHistOps st ops).storedCallHistory = (runHistOps st ops).callHistory := by
  induction ops generalizing st with
  | nil => exact h
  | cons o os ih => exact ih (applyHistOp o st) (applyHistOp_inv o st)

/-- C2: over any sequence of addToCallHistory and clearCallHistory operations
from the empty history, the list never exceeds 50 entries and the stored key
mirrors it; moreover a single addToCallHistory yields exactly the new entry
in front of the previous entries, truncated to the first 50 (evicting the
oldest), and writes the resulting list to storage. -/
theorem C2_history_bounded_newest_first (ops : List HistOp) :
    (runHistOps emptyMgr ops).callHistory.length ≤ 50 ∧
    (runHistOps emptyMgr ops).storedCallHistory = (runHistOps emptyMgr ops).callHistory ∧
    (∀ n ts st, (addToCallHistory n ts st).callHistory
        = (mkCall n ts :: st.callHistory).take 50 ∧
      (addToCallHistory n ts st).storedCallHistory = (addToCallHistory n ts st).callHistory) := by
  have h := runHistOps_inv ops emptyMgr ⟨by simp [emptyMgr], rfl⟩
  exact ⟨h.1, h.2, fun n ts st => add_history_take n ts st⟩

theorem showWidget_fields (pn : List Char) (st : ManagerState) (h : st.widgetExists = true) :
    (showWidget pn st).displayVisible = true ∧
    (showWidget pn st).isWidgetVisible = true ∧
    (showWidget pn st).widgetExists = st.widgetExists ∧
    (showWidget pn st).widgetCount = st.widgetCount ∧
    (showWidget pn st).callHistory = st.callHistory ∧
    (showWidget pn st).storedCallHistory = st.storedCallHistory := by
  unfold showWidget
  rw [h]
  simp only [Bool.true_eq_false, if_false]
  split <;> exact ⟨rfl, rfl, rfl, rfl, rfl, rfl⟩

theorem hideWidget_eq (st : ManagerState) (h : st.widgetExists = true) :
    hideWidget st = { st with displayVisible := false, isWidgetVisible := false
                              outsideClickBound := false } := by
  unfold hideWidget
  rw [if_pos h]

theorem hideWidget_fields (st : ManagerState) :
    (hideWidget st).widgetExists = st.widgetExists ∧
    (hideWidget st).widgetCount = st.widgetCount ∧
    (hideWidget st).callHistory = st.callHistory ∧
    (hideWidget st).storedCallHistory = st.storedCallHistory := by
  unfold hideWidget
  split <;> exact ⟨rfl, rfl, rfl, rfl⟩

theorem toggle_toggle_visible (st : ManagerState) (h : st.widgetExists = true) :
    (toggleWidget (toggleWidget st)).isWidgetVisible = st.isWidgetVisible := by
  cases hv : st.isWidgetVisible
  · have hse : (showWidget [] st).widgetExists = true :=
      (showWidget_fields [] st h).2.2.1.trans h
    have h1 : toggleWidget st = showWidget [] st := by
      unfold toggleWidget; rw [h, hv]; simp
    have h2 : toggleWidget (showWidget [] st) = hideWidget (showWidget [] st) := by
      unfold toggleWidget; rw [hse, (showWidget_fields [] st h).2.1]; simp
    rw [h1, h2, hideWidget_eq _ hse]
  · have h1 : toggleWidget st = hideWidget st := by
      unfold toggleWidget; rw [h, hv]; simp
    have he := hideWidget_eq st h
    have hhe : (hideWidget st).widgetExists = true := by rw [he]; exact h
    have h2 : toggleWidget (hideWidget st) = showWidget [] (hideWidget st) := by
      unfold toggleWidget; rw [he]; simp [h]
    rw [h1, h2, (showWidget_fields [] (hideWidget st) hhe).2.1]

theorem showWidget_count (pn : List Char) (st : ManagerState) :
    (showWidget pn st).widgetCount = st.widgetCount ∧
    (showWidget pn st).widgetExists = st.widgetExists := by
  unfold showWidget
  split
  · exact ⟨rfl, rfl⟩
  · split <;> exact ⟨rfl, rfl⟩

theorem toggleWidget_count (st : ManagerState) :
    (toggleWidget st).widgetCount = st.widgetCount ∧
    (toggleWidget st).widgetExists = st.widgetExists := by
  unfold toggleWidget
  split
  · split
    · exact ⟨(hideWidget_fields st).2.1, (hideWidget_fields st).1⟩
    · exact ⟨(showWidget_count [] st).1, (showWidget_count [] st).2⟩
  · exact ⟨rfl, rfl⟩

theorem updateSettings_count (u : SettingsUpdate) (st : ManagerState) :
    (updateSettings u st).widgetCount = st.widgetCount ∧
    (updateSettings u st).widgetExists = st.widgetExists := by
  unfold updateSettings createFloatingButton
  cases u.showFloatingButton with
  | none => exact ⟨rfl, rfl⟩
  | some b =>
    dsimp only
    split
    · split <;> exact ⟨rfl, rfl⟩
    · split <;> exact ⟨rfl, rfl⟩

theorem applyMOp_count (op : MOp) (st : ManagerState) :
    (applyMOp op st).widgetCount = st.widgetCount ∧
    (applyMOp op st).widgetExists = st.widgetExists := by
  cases op with
  | showOp pn => exact showWidget_count pn st
  | hide => exact ⟨(hideWidget_fields st).2.1, (hideWidget_fields st).1⟩
  | toggle => exact toggleWidget_count st
  | call pn ts =>
    show (initiateCall pn ts st).widgetCount = st.widgetCount ∧
      (initiateCall pn ts st).widgetExists = st.widgetExists
    unfold initiateCall
    split
    · exact ⟨rfl, rfl⟩
    · dsimp only
      split
      · exact ⟨rfl, rfl⟩
      · exact ⟨(showWidget_count _ _).1, (showWidget_count _ _).2⟩
  | clearHistory => exact ⟨rfl, rfl⟩
  | updSettings u => exact updateSettings_count u st

theorem runMOps_count (ops : List MOp) (st : ManagerState) :
    (runMOps st ops).widgetCount = st.widgetCount := by
  induction ops generalizing st with
  | nil => rfl
  | cons o os ih => exact (ih (applyMOp o st)).trans (applyMOp_count o st).1

/-- C6: with the widget initialized, showing is idempotent on the visibility
state, hiding is idempotent on the whole state, toggling twice restores the
original visibility flag, none of the three operations creates or destroys a
widget container, and any sequence of user-triggerable operations after
initialization keeps the number of widget containers at one. -/
theorem C6_widget_toggle_idempotent (st : ManagerState) (pn pn2 : List Char)
    (h : st.widgetExists = true) :
    (showWidget pn2 (showWidget pn st)).displayVisible = (showWidget pn st).displayVisible ∧
    (showWidget pn2 (showWidget pn st)).isWidgetVisible = (showWidget pn st).isWidgetVisible ∧
    (showWidget pn st).displayVisible = true ∧
    (showWidget pn st).isWidgetVisible = true ∧
    hideWidget (hideWidget st) = hideWidget st ∧
    (hideWidget st).displayVisible = false ∧
    (hideWidget st).isWidgetVisible = false ∧
    (toggleWidget (toggleWidget st)).isWidgetVisible = st.isWidgetVisible ∧
    (showWidget pn st).widgetCount = st.widgetCount ∧
    (hideWidget st).widgetCount = st.widgetCount ∧
    (toggleWidget st).widgetCount = st.widgetCount ∧
    (showWidget pn st).widgetExists = st.widgetExists ∧
    (hideWidget st).widgetExists = st.widgetExists ∧
    (toggleWidget st).widgetExists = st.widgetExists ∧
    (∀ ops : List MOp, (runMOps (initializeWidget emptyMgr) ops).widgetCount ≤ 1) := by
  have hs := showWidget_fields pn st h
  have hse : (showWidget pn st).widgetExists = true := hs.2.2.1.trans h
  have hs2 := showWidget_fields pn2 (showWidget pn st) hse
  have hh := hideWidget_eq st h
  have hhe : (hideWidget st).widgetExists = true := by rw [hh]; exact h
  refine ⟨?_, ?_, hs.1, hs.2.1, ?_, ?_, ?_, toggle_toggle_visible st h,
    hs.2.2.2.1, (hideWidget_fields st).2.1, (toggleWidget_count st).1,
    hs.2.2.1, (hideWidget_fields st).1, (toggleWidget_count st).2, ?_⟩
  · rw [hs2.1, hs.1]
  · rw [hs2.2.1, hs.2.1]
  · rw [hideWidget_eq _ hhe, hh]
  · rw [hh]
  · rw [hh]
  · intro ops
    rw [runMOps_count ops (initializeWidget emptyMgr)]
    decide

/-- C6 witness: the freshly initialized state has the widget, and the
idempotence and toggle properties hold there concretely. -/
theorem C6_widget_witness :
    hideWidget (hideWidget (initializeWidget emptyMgr)) = hideWidget (initializeWidget emptyMgr) ∧
    (toggleWidget (toggleWidget (initializeWidget emptyMgr))).isWidgetVisible
      = (initializeWidget emptyMgr).isWidgetVisible ∧
    (showWidget [] (initializeWidget emptyMgr)).isWidgetVisible = true := by
  have h := C6_widget_toggle_idempotent (initializeWidget emptyMgr) [] [] rfl
  exact ⟨h.2.2.2.2.1, h.2.2.2.2.2.2.2.1, h.2.2.2.1⟩

/-- C4 (corrected): the claim fails at the empty string — its cleaned form
fails validation, yet initiateCall returns through the falsy guard without
showing any error toast (the state is fully unchanged). -/
theorem C4_counterexample :
    isValidPhoneNumber (cleanPhoneNumber []) = false ∧
    initiateCall [] "2025-01-01T00:00:00.000Z".data initializedState = initializedState ∧
    (initiateCall [] "2025-01-01T00:00:00.000Z".data initializedState).notifs
      = initializedState.notifs := by
  exact ⟨by decide, rfl, rfl⟩

/-- C4 (amended): for every nonempty number whose cleaned form fails
validation, initiateCall only appends the invalid-number error toast: the
call history, the stored history, the saved settings and the widget
visibility are all left untouched, so the prior state is preserved. -/
theorem C4_initiateCall_invalid (pn ts : List Char) (st : ManagerState)
    (h1 : pn ≠ []) (h2 : isValidPhoneNumber (cleanPhoneNumber pn) = false) :
    initiateCall pn ts st = showNotif invalidMsg "error".data st ∧
    (initiateCall pn ts st).callHistory = st.callHistory ∧
    (initiateCall pn ts st).storedCallHistory = st.storedCallHistory ∧
    (initiateCall pn ts st).savedSettings = st.savedSettings ∧
    (initiateCall pn ts st).isWidgetVisible = st.isWidgetVisible ∧
    (initiateCall pn ts st).displayVisible = st.displayVisible ∧
    (initiateCall pn ts st).notifs = st.notifs ++ [⟨invalidMsg, "error".data⟩] := by
  have he : initiateCall pn ts st = showNotif invalidMsg "error".data st := by
    unfold initiateCall
    rw [if_neg h1]
    dsimp only
    rw [if_pos h2]
  rw [he]
  exact ⟨rfl, rfl, rfl, rfl, rfl, rfl, rfl⟩

/-- C4 witness: a concrete letters-only number is rejected with only the
error toast added. -/
theorem C4_witness :
    initiateCall "abc".data "2025-01-01T00:00:00.000Z".data initializedState
      = showNotif invalidMsg "error".data initializedState :=
  (C4_initiateCall_invalid "abc".data "2025-01-01T00:00:00.000Z".data initializedState
    (by decide) (by decide)).1

theorem bool_true_of_not_false {b : Bool} (h : ¬ b = false) : b = true := by
  cases b
  · exact absurd rfl h
  · rfl

theorem showWidget_hist (pn : List Char) (st : ManagerState) :
    (showWidget pn st).callHistory = st.callHistory := by
  unfold showWidget
  split
  · rfl
  · dsimp only
    split <;> rfl

theorem toggleWidget_hist (st : ManagerState) :
    (toggleWidget st).callHistory = st.callHistory := by
  unfold toggleWidget
  split
  · split
    · exact (hideWidget_fields st).2.2.1
    · exact showWidget_hist [] st
  · rfl

theorem updateSettings_hist (u : SettingsUpdate) (st : ManagerState) :
    (updateSettings u st).callHistory = st.callHistory := by
  unfold updateSettings createFloatingButton
  cases u.showFloatingButton with
  | none => rfl
  | some b =>
    dsimp only
    split
    · split <;> rfl
    · split <;> rfl

/-- A history entry as claim C9 demands it: outbound direction, a number
fixed by cleaning (so digits and plus only), and passing validation. -/
def entryInv (e : CallEntry) : Prop :=
  e.direction = "outbound".data ∧ cleanPhoneNumber e.number = e.number ∧
    isValidPhoneNumber e.number = true

theorem applyMOp_entryInv (op : MOp) (st : ManagerState)
    (h : ∀ e ∈ st.callHistory, entryInv e) :
    ∀ e ∈ (applyMOp op st).callHistory, entryInv e := by
  cases op with
  | showOp pn =>
    intro e he
    simp only [applyMOp] at he
    rw [showWidget_hist pn st] at he
    exact h e he
  | hide =>
    intro e he
    simp only [applyMOp] at he
    rw [(hideWidget_fields st).2.2.1] at he
    exact h e he
  | toggle =>
    intro e he
    simp only [applyMOp] at he
    rw [toggleWidget_hist st] at he
    exact h e he
  | clearHistory =>
    intro e he
    simp only [applyMOp, clearCallHistory] at he
    exact absurd he (List.not_mem_nil e)
  | updSettings u =>
    intro e he
    simp only [applyMOp] at he
    rw [updateSettings_hist u st] at he
    exact h e he
  | call pn ts =>
    intro e he
    simp only [applyMOp] at he
    unfold initiateCall at he
    by_cases hpn : pn = []
    · rw [if_pos hpn] at he
      exact h e he
    · rw [if_neg hpn] at he
      dsimp only at he
      by_cases hval : isValidPhoneNumber (cleanPhoneNumber pn) = false
      · rw [if_pos hval] at he
        exact h e he
      · rw [if_neg hval] at he
        rw [showWidget_hist _ _] at he
        rw [(add_history_take (cleanPhoneNumber pn) ts st).1] at he
        rcases List.mem_cons.mp (List.mem_of_mem_take he) with hnew | hold
        · subst hnew
          exact ⟨rfl, clean_idem pn, bool_true_of_not_false hval⟩
        · exact h e hold

theorem runMOps_entryInv (ops : List MOp) (st : ManagerState)
    (h : ∀ e ∈ st.callHistory, entryInv e) :
    ∀ e ∈ (runMOps st ops).callHistory, entryInv e := by
  induction ops generalizing st with
  | nil => exact h
  | cons o os ih => exact ih (applyMOp o st) (applyMOp_entryInv o st h)

/-- C9: after any sequence of user-triggerable operations from the
initialized state, every call-history entry is outbound, carries a number
already in cleaned form (digits and plus only, fixed by cleaning), and
passes validation. -/
theorem C9_history_entries_outbound_clean_valid (ops : List MOp)
    (e : CallEntry) (he : e ∈ (runMOps initializedState ops).callHistory) :
    e.direction = "outbound".data ∧ cleanPhoneNumber e.number = e.number ∧
    isValidPhoneNumber e.number = true :=
  runMOps_entryInv ops initializedState (fun _ hx => absurd hx (List.not_mem_nil _)) e he

/-- C9 witness: one initiated call with a messy but valid number leaves
exactly one entry, and it is outbound, cleaned and valid. -/
theorem C9_witness :
    mkCall "9876543210".data "t0".data
        ∈ (runMOps initializedState
            [MOp.call "98765-43210".data "t0".data]).callHistory ∧
      (mkCall "9876543210".data "t0".data).direction = "outbound".data ∧
      cleanPhoneNumber (mkCall "9876543210".data "t0".data).number
        = (mkCall "9876543210".data "t0".data).number ∧
      isValidPhoneNumber (mkCall "9876543210".data "t0".data).number = true := by
  have hm : mkCall "9876543210".data "t0".data
      ∈ (runMOps initializedState
          [MOp.call "98765-43210".data "t0".data]).callHistory := by decide
  exact ⟨hm, C9_history_entries_outbound_clean_valid
    [MOp.call "98765-43210".data "t0".data] (mkCall "9876543210".data "t0".data) hm⟩

/-- The initial page state: no stored credentials, a manager with the hidden
widget, no toasts, no responses sent. -/
def pageInit : PageState :=
  { storedCredentials := none, mgr := some initializedState
    pageNotifs := [], sentResponses := [] }

/-- C5: the listener is gated on the single trusted origin — a message from
any other origin changes nothing and sends nothing; a message from the
trusted origin saves credentials, answers a credential request with the
stored value and the sender origin, records logout, or toasts an incoming
call, according to its type. -/
theorem C5_message_listener_origin_gate (ev : MessageEvent) (st : PageState) :
    (ev.origin ≠ trustedOrigin → messageListener ev st = st) ∧
    (ev.origin = trustedOrigin →
      (ev.dataType = saveCredsType →
        messageListener ev st
          = { st with storedCredentials := some (CredValue.blob ev.dataCredentials) }) ∧
      (ev.dataType = requestCredsType →
        messageListener ev st
          = { st with sentResponses
                := st.sentResponses ++ [(st.storedCredentials, ev.origin)] }) ∧
      (ev.dataType = logoutSyncType →
        messageListener ev st = { st with storedCredentials := some CredValue.loggedOut }) ∧
      (ev.dataType = incomingCallType →
        (messageListener ev st).pageNotifs
            = st.pageNotifs
                ++ [⟨incomingMsg (ev.dataFrom.getD "Unknown".data), "info".data⟩] ∧
          (messageListener ev st).storedCredentials = st.storedCredentials ∧
          (messageListener ev st).sentResponses = st.sentResponses)) := by
  constructor
  · intro h
    unfold messageListener
    rw [if_pos h]
  · intro heq
    have hno : ¬ (ev.origin ≠ trustedOrigin) := fun hh => hh heq
    refine ⟨?_, ?_, ?_, ?_⟩ <;> intro hT <;> unfold messageListener <;>
      rw [if_neg hno, hT] <;> dsimp only
    · rw [if_neg (show ¬ (saveCredsType = incomingCallType) by decide),
        if_pos rfl,
        if_neg (show ¬ (saveCredsType = requestCredsType) by decide),
        if_neg (show ¬ (saveCredsType = logoutSyncType) by decide)]
    · rw [if_neg (show ¬ (requestCredsType = incomingCallType) by decide),
        if_neg (show ¬ (requestCredsType = saveCredsType) by decide),
        if_pos rfl,
        if_neg (show ¬ (requestCredsType = logoutSyncType) by decide)]
    · rw [if_neg (show ¬ (logoutSyncType = incomingCallType) by decide),
        if_neg (show ¬ (logoutSyncType = saveCredsType) by decide),
        if_neg (show ¬ (logoutSyncType = requestCredsType) by decide),
        if_pos rfl]
    · rw [if_pos rfl,
        if_neg (show ¬ (incomingCallType = saveCredsType) by decide),
        if_neg (show ¬ (incomingCallType = requestCredsType) by decide),
        if_neg (show ¬ (incomingCallType = logoutSyncType) by decide)]
      cases st.mgr with
      | none => exact ⟨rfl, rfl, rfl⟩
      | some m =>
        dsimp only
        split <;> exact ⟨rfl, rfl, rfl⟩

/-- C5 witness: a save message from an untrusted origin is ignored, and the
same message from the trusted origin stores the credentials blob. -/
theorem C5_witness :
    messageListener ⟨"https://evil.example".data, saveCredsType, none, "c".data⟩ pageInit
        = pageInit ∧
      (messageListener ⟨trustedOrigin, saveCredsType, none, "c".data⟩
          pageInit).storedCredentials = some (CredValue.blob "c".data) := by
  have h1 := C5_message_listener_origin_gate
    ⟨"https://evil.example".data, saveCredsType, none, "c".data⟩ pageInit
  have h2 := C5_message_listener_origin_gate
    ⟨trustedOrigin, saveCredsType, none, "c".data⟩ pageInit
  refine ⟨h1.1 (by decide), ?_⟩
  rw [(h2.2 rfl).1 rfl]

/-- C10: for a click target outside the widget that is neither a tel anchor
nor a highlighted number, the auto-detection path initiates a call exactly
when auto-detect is enabled, the trimmed text is at most 50 characters, and
the text contains exactly one detection-regex match that passes validation —
and the initiated number is that match. -/
theorem C10_autodetect_gate (s : Settings) (t : ClickTarget) (m : List Char)
    (h1 : t.insideWidget = false) (h2 : t.isTelAnchor = false)
    (h3 : t.isHighlighted = false) :
    handleClick s t = some m ↔
      (s.autoDetect = true ∧ (jsTrim t.textContent).length ≤ 50 ∧
       phoneMatches (jsTrim t.textContent) = [m] ∧ isValidPhoneNumber m = true) := by
  unfold handleClick
  rw [h1, h2, h3]
  simp only [Bool.false_eq_true, if_false]
  cases hAD : s.autoDetect
  · simp
  · cases hE : t.textContent.isEmpty
    · simp only [Bool.not_true, Bool.false_or, Bool.false_eq_true, if_false]
      split
      · next hlen =>
        constructor
        · intro hc; exact absurd hc (by simp)
        · rintro ⟨-, hle, -, -⟩; omega
      · next hlen =>
        cases hM : phoneMatches (jsTrim t.textContent) with
        | nil => simp
        | cons x xs =>
          cases xs with
          | nil =>
            dsimp only
            cases hv : isValidPhoneNumber x
            · simp only [Bool.false_eq_true, if_false]
              constructor
              · intro hc; exact absurd hc (by simp)
              · rintro ⟨-, -, hmm, hvm⟩
                obtain rfl : x = m := by injection hmm
                rw [hv] at hvm; exact absurd hvm (by simp)
            · simp only [if_pos rfl]
              constructor
              · intro hc
                obtain rfl : x = m := by injection hc
                exact ⟨trivial, by omega, rfl, hv⟩
              · rintro ⟨-, -, hmm, -⟩
                obtain rfl : x = m := by injection hmm
                rfl
          | cons y ys =>
            simp
    · have ht : t.textContent = [] := by
        cases hx : t.textContent with
        | nil => rfl
        | cons a l => rw [hx] at hE; exact absurd hE (by simp)
      rw [ht]
      simp only [Bool.not_true, Bool.or_true, if_pos rfl]
      constructor
      · intro hc; exact absurd hc (by simp)
      · rintro ⟨-, -, hmm, -⟩
        rw [show jsTrim [] = [] from rfl, show phoneMatches [] = [] from rfl] at hmm
        exact absurd hmm (by simp)

/-- C10 witness: a short text with exactly one valid match auto-initiates a
call with that match. -/
theorem C10_witness :
    handleClick defaultSettings
        ⟨false, false, [], false, "Call 9876543210 now".data⟩
      = some "9876543210".data :=
  (C10_autodetect_gate defaultSettings
      ⟨false, false, [], false, "Call 9876543210 now".data⟩
      "9876543210".data rfl rfl rfl).mpr
    ⟨rfl, by decide, by decide, by decide⟩
